import Mathlib

/-!
# http-raw: dual-mode dispatch and the raw wire path

A shallow embedding of `roundtrip.go`, `transport.go` and `client.go`.

Modelling conventions.

* A Go string is the sequence of runes that `range` yields over it, a Lean `String`.
* A byte slice is a list of octets.
* A Go `error` is identified by its message; the nil error is `none`.
* Everything outside the package (the request body stream, the network, the
  HTTP response reader, the standard transport and client) is a field of
  `World`: a function from the arguments of the call to what the call returns.
  Each of these calls is made at most once per run, so a function of the
  arguments loses nothing.
* Every function of the package returns, next to its Go result, the log of the
  external calls it made, in order, each with the error that call returned.
* A run that dereferences a nil interface does not return: `Result.panicked`.
* `req.URL` is never nil: the standard client refuses such a request before it
  reaches a transport.  `req.Body` may be nil, as for any client request.
-/

namespace HttpRaw

/-! ## Data model -/

/-- Byte slices. -/
abbrev Bytes := List Nat

/-- An error value, identified by its message. -/
abbrev GoError := String

/-- Identity of a network connection (a `net.Conn` value). -/
abbrev Conn := Nat

/-- A function-typed field: nil, or the identity of the function value. -/
abbrev FuncRef := Option Nat

/-- A `time.Duration`, in nanoseconds. -/
abbrev Duration := Int

/-- An `http.Header`: keys with their value lists. -/
abbrev Header := List (String × List String)

/-- A `map[string]string`, as its entries in iteration order. -/
abbrev StringMap := List (String × String)

/-- The part of `tls.Config` the examples set. -/
structure TLSConfig where
  InsecureSkipVerify : Bool
  ServerName : String
deriving DecidableEq, Repr

/-- An `io.ReadCloser`.  `stream` is a reader whose bytes come from outside the
package (the caller's reader, or a response body backed by a connection);
`bytesReader data` is `io.NopCloser(bytes.NewReader(data))` with `data` unread. -/
inductive Body where
  | stream (id : Nat)
  | bytesReader (data : Bytes)
deriving DecidableEq, Repr

/-- The fields of `url.URL` a request carries. -/
structure URL where
  Scheme : String
  Host : String
  Path : String
  RawQuery : String
deriving DecidableEq, Repr

/-- An `http.Request` as the transport sees it.  A nil `Body` is `none`. -/
structure Request where
  Method : String
  URL : URL
  Header : Header
  Body : Option Body
deriving DecidableEq, Repr

/-- An `http.Response`. -/
structure Response where
  Status : String
  StatusCode : Int
  Proto : String
  Header : Header
  ContentLength : Int
  Body : Body
deriving DecidableEq, Repr

/-- The exported fields of `Transport` (transport.go, lines 136-197).  The
unexported fields are bookkeeping of the standard transport that nothing in
the package reads or writes. -/
structure Transport where
  Proxy : FuncRef
  OnProxyConnectResponse : FuncRef
  DialContext : FuncRef
  Dial : FuncRef
  DialTLSContext : FuncRef
  DialTLS : FuncRef
  TLSClientConfig : Option TLSConfig
  TLSHandshakeTimeout : Duration
  DisableKeepAlives : Bool
  DisableCompression : Bool
  MaxIdleConns : Int
  MaxIdleConnsPerHost : Int
  MaxConnsPerHost : Int
  IdleConnTimeout : Duration
  ResponseHeaderTimeout : Duration
  ExpectContinueTimeout : Duration
  TLSNextProto : Option (List (String × Nat))
  ProxyConnectHeader : Option Header
  GetProxyConnectHeader : FuncRef
  MaxResponseHeaderBytes : Int
  WriteBufferSize : Int
  ReadBufferSize : Int
  ForceAttemptHTTP2 : Bool
deriving DecidableEq, Repr

/-- The exported fields of the standard `http.Transport`, the same list. -/
structure HTTPTransport where
  Proxy : FuncRef
  OnProxyConnectResponse : FuncRef
  DialContext : FuncRef
  Dial : FuncRef
  DialTLSContext : FuncRef
  DialTLS : FuncRef
  TLSClientConfig : Option TLSConfig
  TLSHandshakeTimeout : Duration
  DisableKeepAlives : Bool
  DisableCompression : Bool
  MaxIdleConns : Int
  MaxIdleConnsPerHost : Int
  MaxConnsPerHost : Int
  IdleConnTimeout : Duration
  ResponseHeaderTimeout : Duration
  ExpectContinueTimeout : Duration
  TLSNextProto : Option (List (String × Nat))
  ProxyConnectHeader : Option Header
  GetProxyConnectHeader : FuncRef
  MaxResponseHeaderBytes : Int
  WriteBufferSize : Int
  ReadBufferSize : Int
  ForceAttemptHTTP2 : Bool
deriving DecidableEq, Repr

/-- A `RoundTripper` value held by a client: a transport of this package, or
some other implementation. -/
inductive RoundTripper where
  | raw (t : Transport)
  | other (id : Nat)
deriving DecidableEq, Repr

/-- The `Client` struct (client.go, lines 16-21). -/
structure Client where
  Transport : Option RoundTripper
  CheckRedirect : FuncRef
  Jar : FuncRef
  Timeout : Duration
deriving DecidableEq, Repr

/-- The standard `http.Client`, same fields. -/
structure HTTPClient where
  Transport : Option RoundTripper
  CheckRedirect : FuncRef
  Jar : FuncRef
  Timeout : Duration
deriving DecidableEq, Repr

/-- A value passed in a variadic `args ...any` list, by dynamic type: an
`io.Reader`, a `map[string]string`, or anything else (nil included). -/
inductive Arg where
  | reader (b : Body)
  | headerMap (m : StringMap)
  | other (tag : String)
deriving DecidableEq, Repr

/-! ## The world outside the package -/

/-- What the calls that leave the package return. -/
structure World where
  /-- The Unicode upper-case table, consulted for runes above U+007F. -/
  upperCase : Char → Char
  /-- What `io.ReadAll` returns on a stream: the bytes and the error. -/
  readAll : Nat → Bytes × Option GoError
  /-- What `Close` returns on a stream. -/
  close : Nat → Option GoError
  /-- The call `tls.Dial(network, addr, config)`. -/
  tlsDial : String → String → Option TLSConfig → Except GoError Conn
  /-- The call `net.Dial(network, addr)`. -/
  netDial : String → String → Except GoError Conn
  /-- The call `conn.Write(p)`: the count written and the error. -/
  connWrite : Conn → Bytes → Nat × Option GoError
  /-- The call `http.ReadResponse(bufio.NewReader(conn), req)`. -/
  readResponse : Conn → Request → Except GoError Response
  /-- The call `conn.Close()`. -/
  connClose : Conn → Option GoError
  /-- The standard transport, `(*http.Transport).RoundTrip`. -/
  stdRoundTrip : HTTPTransport → Request → Option Response × Option GoError
  /-- The call `http.NewRequestWithContext(context.Background(), method, url, body)`. -/
  newRequest : String → String → Option Body → Except GoError Request
  /-- The function `textproto.CanonicalMIMEHeaderKey`, applied by `Header.Set`. -/
  canonicalMIMEHeaderKey : String → String
  /-- The standard client, `(*http.Client).Do`. -/
  clientDo : HTTPClient → Request → Option Response × Option GoError

/-- An external call. -/
inductive Op where
  | delegate (std : HTTPTransport) (req : Request)
  | readRequestBody (b : Body)
  | closeRequestBody (b : Body)
  | tlsDial (network addr : String) (cfg : Option TLSConfig)
  | netDial (network addr : String)
  | connWrite (c : Conn) (p : Bytes)
  | readResponse (c : Conn) (req : Request)
  | readResponseBody (c : Conn) (b : Body)
  | closeResponseBody (c : Conn) (b : Body)
  | connClose (c : Conn)
  | newRequest (method url : String) (body : Option Body)
  | clientDo (client : HTTPClient) (req : Request)
deriving DecidableEq, Repr

/-- A log entry: the call made and the error it returned. -/
structure Call where
  op : Op
  err : Option GoError
deriving DecidableEq, Repr

/-- How a function of the package ends: it returns its pair, or it panics. -/
inductive Result where
  | returned (resp : Option Response) (err : Option GoError)
  | panicked
deriving DecidableEq, Repr

/-- A run of `RoundTrip`: how it ended, the external calls in order, and the
caller's request object as it is afterwards. -/
structure Run where
  result : Result
  trace : List Call
  req : Request
deriving DecidableEq, Repr

/-- A run of a client function: how it ended and the external calls in order. -/
structure ClientRun where
  result : Result
  trace : List Call
deriving DecidableEq, Repr

/-! ## Library functions used by the package -/

/-- The ASCII case shift both library functions apply: `c -= 'a' - 'A'` for a
lower-case ASCII letter, the rune itself otherwise. -/
def upperASCII (c : Char) : Char :=
  if 'a'.toNat ≤ c.toNat ∧ c.toNat ≤ 'z'.toNat then Char.ofNat (c.toNat - 32) else c

/-- The function `unicode.ToUpper`: the ASCII range is handled in place, the
table is consulted above it. -/
def unicodeToUpper (tbl : Char → Char) (r : Char) : Char :=
  if r.toNat ≤ 0x7F then upperASCII r else tbl r

/-- The function `strings.ToUpper`: an ASCII-only string is returned as it is
when it has no lower-case letter and has its lower-case letters shifted
otherwise; any other string is mapped rune by rune with `unicode.ToUpper`. -/
def stringsToUpper (tbl : Char → Char) (s : String) : String :=
  let isASCII := s.data.all (fun c => decide (c.toNat < 0x80))
  let hasLower := s.data.any (fun c => decide ('a'.toNat ≤ c.toNat ∧ c.toNat ≤ 'z'.toNat))
  if isASCII then
    if !hasLower then s
    else String.mk (s.data.map upperASCII)
  else String.mk (s.data.map (unicodeToUpper tbl))

/-- The function `io.ReadAll` on a body: an in-memory reader yields its bytes
and never fails; a stream yields what the world supplies. -/
def ioReadAll (w : World) : Body → Bytes × Option GoError
  | .bytesReader d => (d, none)
  | .stream s => w.readAll s

/-- The method `Close` of a body: a no-op on `io.NopCloser`. -/
def Body.Close (w : World) : Body → Option GoError
  | .bytesReader _ => none
  | .stream s => w.close s

/-- The method `Header.Clone`: a copy with the same entries (nil for nil). -/
def Header.Clone (h : Option Header) : Option Header := h

/-! ## transport.go -/

/-- The method `(*Transport).Clone` (transport.go, lines 218-243): the fields
the composite literal lists are copied; the others keep their zero value. -/
def Transport.Clone (t : Transport) : HTTPTransport :=
  { Proxy := t.Proxy
    OnProxyConnectResponse := t.OnProxyConnectResponse
    DialContext := t.DialContext
    Dial := t.Dial
    DialTLS := t.DialTLS
    DialTLSContext := t.DialTLSContext
    TLSHandshakeTimeout := t.TLSHandshakeTimeout
    DisableKeepAlives := t.DisableKeepAlives
    DisableCompression := t.DisableCompression
    MaxIdleConns := t.MaxIdleConns
    MaxIdleConnsPerHost := t.MaxIdleConnsPerHost
    MaxConnsPerHost := t.MaxConnsPerHost
    IdleConnTimeout := t.IdleConnTimeout
    ResponseHeaderTimeout := t.ResponseHeaderTimeout
    ExpectContinueTimeout := t.ExpectContinueTimeout
    ProxyConnectHeader := Header.Clone t.ProxyConnectHeader
    GetProxyConnectHeader := t.GetProxyConnectHeader
    MaxResponseHeaderBytes := t.MaxResponseHeaderBytes
    ForceAttemptHTTP2 := t.ForceAttemptHTTP2
    WriteBufferSize := t.WriteBufferSize
    ReadBufferSize := t.ReadBufferSize
    TLSClientConfig := none
    TLSNextProto := none }

/-! ## roundtrip.go -/

/-- Lines 31-45 of `RoundTrip`: the dial chosen by the URL scheme, as the call
made and what it returned. -/
def Transport.dial (w : World) (t : Transport) (req : Request) : Op × Except GoError Conn :=
  if req.URL.Scheme = "https" then
    (.tlsDial "tcp" req.URL.Host t.TLSClientConfig,
      w.tlsDial "tcp" req.URL.Host t.TLSClientConfig)
  else
    (.netDial "tcp" req.URL.Host, w.netDial "tcp" req.URL.Host)

/-- Lines 48-72 of `RoundTrip`: what runs between `defer conn.Close()` and the
return. -/
def Transport.exchange (w : World) (conn : Conn) (rawRequest : Bytes) (req : Request) :
    Result × List Call :=
  match (w.connWrite conn rawRequest).2 with
  | some err => (.returned none (some err), [⟨.connWrite conn rawRequest, some err⟩])
  | none =>
    match w.readResponse conn req with
    | .error err =>
      (.returned none (some err),
        [⟨.connWrite conn rawRequest, none⟩, ⟨.readResponse conn req, some err⟩])
    | .ok resp =>
      match (ioReadAll w resp.Body).2 with
      | some err =>
        (.returned none (some err),
          [⟨.connWrite conn rawRequest, none⟩, ⟨.readResponse conn req, none⟩,
           ⟨.readResponseBody conn resp.Body, some err⟩])
      | none =>
        let bodyBytes := (ioReadAll w resp.Body).1
        match resp.Body.Close w with
        | some err =>
          (.returned none (some err),
            [⟨.connWrite conn rawRequest, none⟩, ⟨.readResponse conn req, none⟩,
             ⟨.readResponseBody conn resp.Body, none⟩,
             ⟨.closeResponseBody conn resp.Body, some err⟩])
        | none =>
          (.returned (some { resp with Body := .bytesReader bodyBytes }) none,
            [⟨.connWrite conn rawRequest, none⟩, ⟨.readResponse conn req, none⟩,
             ⟨.readResponseBody conn resp.Body, none⟩,
             ⟨.closeResponseBody conn resp.Body, none⟩])

/-- Lines 18-73 of `RoundTrip`, the raw path.  The deferred `conn.Close()` runs
after `exchange`, whichever way that ends, and its error is dropped.  A nil
body makes `io.ReadAll` call `Read` on a nil interface, which panics. -/
def Transport.rawRoundTrip (w : World) (t : Transport) (req : Request) : Run :=
  match req.Body with
  | none => { result := .panicked, trace := [], req := req }
  | some body =>
    match (ioReadAll w body).2 with
    | some err =>
      { result := .returned none (some err)
        trace := [⟨.readRequestBody body, some err⟩]
        req := req }
    | none =>
      let rawRequest := (ioReadAll w body).1
      match body.Close w with
      | some err =>
        { result := .returned none (some err)
          trace := [⟨.readRequestBody body, none⟩, ⟨.closeRequestBody body, some err⟩]
          req := req }
      | none =>
        let req1 : Request := { req with Body := some (.bytesReader []) }
        match (t.dial w req1).2 with
        | .error err =>
          { result := .returned none (some err)
            trace := [⟨.readRequestBody body, none⟩, ⟨.closeRequestBody body, none⟩,
                      ⟨(t.dial w req1).1, some err⟩]
            req := req1 }
        | .ok conn =>
          let r := Transport.exchange w conn rawRequest req1
          { result := r.1
            trace := [⟨.readRequestBody body, none⟩, ⟨.closeRequestBody body, none⟩,
                      ⟨(t.dial w req1).1, none⟩] ++ r.2 ++
                     [⟨.connClose conn, w.connClose conn⟩]
            req := req1 }

/-- The method `(*Transport).RoundTrip` (roundtrip.go, lines 13-73): any method
whose upper-casing is not `RAW` goes to the standard transport obtained from
`Clone`, and its pair is returned as it is. -/
def Transport.RoundTrip (w : World) (t : Transport) (req : Request) : Run :=
  if stringsToUpper w.upperCase req.Method ≠ "RAW" then
    let r := w.stdRoundTrip t.Clone req
    { result := .returned r.1 r.2, trace := [⟨.delegate t.Clone req, r.2⟩], req := req }
  else
    t.rawRoundTrip w req

/-! ## client.go -/

/-- The method `(*Client).Clone` (lines 25-33). -/
def Client.Clone (c : Client) : HTTPClient :=
  { Transport := c.Transport, CheckRedirect := c.CheckRedirect, Jar := c.Jar,
    Timeout := c.Timeout }

/-- The method `(*Client).Do` (lines 35-37). -/
def Client.Do (w : World) (c : Client) (req : Request) : ClientRun :=
  let r := w.clientDo c.Clone req
  { result := .returned r.1 r.2, trace := [⟨.clientDo c.Clone req, r.2⟩] }

/-- The function `NewRequest` (lines 39-41). -/
def NewRequest (w : World) (method url : String) (body : Option Body) :
    Except GoError Request :=
  w.newRequest method url body

/-- The assignment `m[key] = value` on a `map[string]string`. -/
def mapSet (m : StringMap) (key value : String) : StringMap :=
  if m.any (fun p => p.1 == key) then
    m.map (fun p => if p.1 = key then (key, value) else p)
  else m ++ [(key, value)]

/-- The function `extendMap` (lines 43-47). -/
def extendMap (original extension : StringMap) : StringMap :=
  extension.foldl (fun acc p => mapSet acc p.1 p.2) original

/-- The method `Header.Set`: the canonical key gets the one value. -/
def Header.Set (w : World) (h : Header) (key value : String) : Header :=
  let k := w.canonicalMIMEHeaderKey key
  if h.any (fun p => p.1 == k) then
    h.map (fun p => if p.1 = k then (k, [value]) else p)
  else h ++ [(k, [value])]

/-- The method `(*Client).Request` (lines 49-58). -/
def Client.Request (w : World) (c : Client) (method url : String) (body : Option Body)
    (header : StringMap) : ClientRun :=
  match NewRequest w (stringsToUpper w.upperCase method) url body with
  | .error err =>
    { result := .returned none (some err)
      trace := [⟨.newRequest (stringsToUpper w.upperCase method) url body, some err⟩] }
  | .ok req =>
    let req1 : HttpRaw.Request :=
      { req with Header := header.foldl (fun h p => Header.Set w h p.1 p.2) req.Header }
    let r := c.Do w req1
    { result := r.result
      trace := ⟨.newRequest (stringsToUpper w.upperCase method) url body, none⟩ :: r.trace }

/-- One turn of the loop of `request` (lines 64-71): a reader becomes the body,
a string map becomes the header, anything else is skipped. -/
def requestStep (acc : Option Body × StringMap) (arg : Arg) : Option Body × StringMap :=
  match arg with
  | .reader v => (some v, acc.2)
  | .headerMap v => (acc.1, v)
  | .other _ => acc

/-- The method `(*Client).request` (lines 60-74). -/
def Client.request (w : World) (c : Client) (method url : String) (args : List Arg) :
    ClientRun :=
  let r := args.foldl requestStep (none, [])
  c.Request w method url r.1 r.2

/-- The method `(*Client).Get` (lines 76-78). -/
def Client.Get (w : World) (c : Client) (url : String) (args : List Arg) : ClientRun :=
  c.request w "GET" url args

/-- The method `(*Client).Trace` (lines 80-82). -/
def Client.Trace (w : World) (c : Client) (url : String) (args : List Arg) : ClientRun :=
  c.request w "TRACE" url args

/-- The method `(*Client).Connect` (lines 84-86). -/
def Client.Connect (w : World) (c : Client) (url : String) : ClientRun :=
  c.Request w "CONNECT" url none []

/-- The method `(*Client).Post` (lines 88-97).  The type assertion on
`args[0]` panics on anything that is not a string map. -/
def Client.Post (w : World) (c : Client) (url contentType : String) (body : Option Body)
    (args : List Arg) : ClientRun :=
  let headers : StringMap := [("Content-Type", contentType)]
  if args.length > 0 then
    if args.length > 1 then
      { result := .returned none (some "too many arguments"), trace := [] }
    else
      match args.head? with
      | some (.headerMap m) => c.Request w "POST" url body (extendMap headers m)
      | _ => { result := .panicked, trace := [] }
  else
    c.Request w "POST" url body headers

/-- The method `(*Client).Put` (lines 99-109).  The type assertion on
`args[0]` panics on anything that is not a string map. -/
def Client.Put (w : World) (c : Client) (url contentType : String) (body : Option Body)
    (args : List Arg) : ClientRun :=
  let headers : StringMap := [("Content-Type", contentType)]
  if args.length > 0 then
    if args.length > 1 then
      { result := .returned none (some "too many arguments"), trace := [] }
    else
      match args.head? with
      | some (.headerMap m) => c.Request w "PUT" url body (extendMap headers m)
      | _ => { result := .panicked, trace := [] }
  else
    c.Request w "PUT" url body headers

/-- The method `(*Client).Patch` (lines 111-121).  The type assertion on
`args[0]` panics on anything that is not a string map. -/
def Client.Patch (w : World) (c : Client) (url contentType : String) (body : Option Body)
    (args : List Arg) : ClientRun :=
  let headers : StringMap := [("Content-Type", contentType)]
  if args.length > 0 then
    if args.length > 1 then
      { result := .returned none (some "too many arguments"), trace := [] }
    else
      match args.head? with
      | some (.headerMap m) => c.Request w "PATCH" url body (extendMap headers m)
      | _ => { result := .panicked, trace := [] }
  else
    c.Request w "PATCH" url body headers

/-- The method `(*Client).Delete` (lines 123-125). -/
def Client.Delete (w : World) (c : Client) (url : String) (args : List Arg) : ClientRun :=
  c.request w "DELETE" url args

/-- The method `(*Client).Head` (lines 127-129). -/
def Client.Head (w : World) (c : Client) (url : String) (args : List Arg) : ClientRun :=
  c.request w "HEAD" url args

/-- The method `(*Client).Options` (lines 131-133). -/
def Client.Options (w : World) (c : Client) (url : String) (args : List Arg) : ClientRun :=
  c.request w "OPTIONS" url args

/-- The method `(*Client).Raw` (lines 135-137). -/
def Client.Raw (w : World) (c : Client) (url : String) (body : Option Body) : ClientRun :=
  c.Request w "RAW" url body []

/-! ## Vocabulary of the properties -/

/-- The spellings of the raw sentinel: `RAW` in any mix of upper and lower case. -/
def rawSpellings : List String :=
  ["RAW", "RAw", "RaW", "Raw", "rAW", "rAw", "raW", "raw"]

/-- The table maps no rune above the ASCII range to `R`, `A` or `W`. -/
def TableKeepsRAW (tbl : Char → Char) : Prop :=
  ∀ c : Char, 0x7F < c.toNat → tbl c ≠ 'R' ∧ tbl c ≠ 'A' ∧ tbl c ≠ 'W'

/-- The connection and bytes of a write call. -/
def Op.written? : Op → Option (Conn × Bytes)
  | .connWrite c p => some (c, p)
  | _ => none

/-- Calls that read from the connection: parsing the response and reading its body. -/
def Op.isConnRead : Op → Bool
  | .readResponse _ _ => true
  | .readResponseBody _ _ => true
  | _ => false

/-- Calls that open a connection. -/
def Op.isDial : Op → Bool
  | .tlsDial _ _ _ => true
  | .netDial _ _ => true
  | _ => false

/-- Calls that close a connection. -/
def Op.isConnClose : Op → Bool
  | .connClose _ => true
  | _ => false

/-- Calls that hand the request to the standard transport. -/
def Op.isDelegate : Op → Bool
  | .delegate _ _ => true
  | _ => false

/-- The steps of a raw exchange, in the order of the source. -/
inductive Step where
  | readRequestBody | closeRequestBody | dial | write | parseResponse
  | readResponseBody | closeResponseBody
deriving DecidableEq, Repr

/-- The step a call belongs to; closing the connection is the deferred release,
not a step, and the client-level calls are none of the transport. -/
def Op.step? : Op → Option Step
  | .readRequestBody _ => some .readRequestBody
  | .closeRequestBody _ => some .closeRequestBody
  | .tlsDial _ _ _ => some .dial
  | .netDial _ _ => some .dial
  | .connWrite _ _ => some .write
  | .readResponse _ _ => some .parseResponse
  | .readResponseBody _ _ => some .readResponseBody
  | .closeResponseBody _ _ => some .closeResponseBody
  | _ => none

/-- All seven steps, in order. -/
def allSteps : List Step :=
  [.readRequestBody, .closeRequestBody, .dial, .write, .parseResponse,
   .readResponseBody, .closeResponseBody]

/-- The string map of a header-map argument. -/
def Arg.headerMap? : Arg → Option StringMap
  | .headerMap m => some m
  | _ => none

/-- The reader of a reader argument. -/
def Arg.reader? : Arg → Option Body
  | .reader b => some b
  | _ => none

/-- The last header-map argument of a list, the nil map when there is none. -/
def lastHeaderMap (args : List Arg) : StringMap :=
  ((args.filterMap Arg.headerMap?).getLast?).getD []

/-- The last reader argument of a list, nil when there is none. -/
def lastReader (args : List Arg) : Option Body :=
  (args.filterMap Arg.reader?).getLast?

/-! ## Concrete inputs -/

/-- A transport as the example program configures it. -/
def exampleTransport : Transport :=
  { Proxy := none, OnProxyConnectResponse := none, DialContext := none, Dial := none,
    DialTLSContext := none, DialTLS := none,
    TLSClientConfig := some { InsecureSkipVerify := true, ServerName := "" },
    TLSHandshakeTimeout := 10000000000, DisableKeepAlives := true, DisableCompression := false,
    MaxIdleConns := 100, MaxIdleConnsPerHost := 0, MaxConnsPerHost := 0,
    IdleConnTimeout := 90000000000, ResponseHeaderTimeout := 0,
    ExpectContinueTimeout := 1000000000, TLSNextProto := none, ProxyConnectHeader := none,
    GetProxyConnectHeader := none, MaxResponseHeaderBytes := 0, WriteBufferSize := 0,
    ReadBufferSize := 0, ForceAttemptHTTP2 := false }

/-- The response a cooperative server sends: status 200 and a body on stream 2. -/
def okResponse : Response :=
  { Status := "200 OK", StatusCode := 200, Proto := "HTTP/1.1",
    Header := [("Content-Type", ["text/plain"])], ContentLength := 2, Body := .stream 2 }

/-- A world in which every call succeeds: stream 1 holds the request bytes
`GET` and stream 2 the response body `ok`. -/
def happyWorld : World :=
  { upperCase := fun c => c
    readAll := fun s => if s = 1 then ([71, 69, 84], none) else ([111, 107], none)
    close := fun _ => none
    tlsDial := fun _ _ _ => .ok 7
    netDial := fun _ _ => .ok 8
    connWrite := fun _ p => (p.length, none)
    readResponse := fun _ _ => .ok okResponse
    connClose := fun _ => none
    stdRoundTrip := fun _ _ => (some okResponse, none)
    newRequest := fun m u b =>
      .ok { Method := m, URL := { Scheme := "http", Host := u, Path := "/", RawQuery := "" },
            Header := [], Body := b }
    canonicalMIMEHeaderKey := fun k => k
    clientDo := fun _ _ => (some okResponse, none) }

/-- A world in which the write fails, everything else as in `happyWorld`. -/
def brokenPipeWorld : World :=
  { happyWorld with connWrite := fun _ _ => (0, some "broken pipe") }

/-- A raw request over TLS whose body is stream 1. -/
def rawRequest1 : Request :=
  { Method := "raw"
    URL := { Scheme := "https", Host := "example.org:443", Path := "/", RawQuery := "" }
    Header := [], Body := some (.stream 1) }

/-- A raw request over a plain connection whose body is stream 1. -/
def rawRequest2 : Request :=
  { Method := "RAW"
    URL := { Scheme := "http", Host := "example.org:80", Path := "/get", RawQuery := "a=a" }
    Header := [("X-Test", ["1"])], Body := some (.stream 1) }

/-- A raw request with a nil body, as `Raw(url, nil)` builds it. -/
def nilBodyRequest : Request :=
  { Method := "RAW"
    URL := { Scheme := "http", Host := "example.org:80", Path := "/", RawQuery := "" }
    Header := [], Body := none }

/-- A request with an ordinary method. -/
def getRequest : Request :=
  { Method := "GET"
    URL := { Scheme := "https", Host := "example.org:443", Path := "/", RawQuery := "" }
    Header := [("Accept", ["*/*"])], Body := none }

/-- The client of the example program. -/
def exampleClient : Client :=
  { Transport := some (.raw exampleTransport), CheckRedirect := none, Jar := none,
    Timeout := 15000000000 }

/-- The run that refuses the call: no response, the too-many-arguments error,
no external call. -/
def tooManyArguments : ClientRun :=
  { result := .returned none (some "too many arguments"), trace := [] }

/-! ## Upper-casing and the raw sentinel -/

theorem upperASCII_eq_RAW (c u : Char) (hu : u = 'R' ∨ u = 'A' ∨ u = 'W')
    (h : upperASCII c = u) : c = u ∨ c = Char.ofNat (u.toNat + 32) := by
  unfold upperASCII at h
  split at h
  · rename_i hc
    have hc0 : c = Char.ofNat c.toNat := (Char.ofNat_toNat c).symm
    obtain ⟨h1, h2⟩ := hc
    have h1' : 97 ≤ c.toNat := h1
    have h2' : c.toNat ≤ 122 := h2
    generalize c.toNat = n at hc0 h h1' h2'
    subst hc0
    rcases hu with rfl | rfl | rfl <;> interval_cases n <;>
      first
        | exact absurd h (by decide)
        | (right; rfl)
  · exact Or.inl h

theorem unicodeToUpper_eq_RAW (tbl : Char → Char) (htbl : TableKeepsRAW tbl) (c u : Char)
    (hu : u = 'R' ∨ u = 'A' ∨ u = 'W') (h : unicodeToUpper tbl c = u) :
    c = u ∨ c = Char.ofNat (u.toNat + 32) := by
  unfold unicodeToUpper at h
  split at h
  · exact upperASCII_eq_RAW c u hu h
  · rename_i hc
    have := htbl c (by omega)
    rcases hu with rfl | rfl | rfl <;> simp_all

theorem map_eq_RAW (f : Char → Char)
    (hf : ∀ c u : Char, (u = 'R' ∨ u = 'A' ∨ u = 'W') → f c = u →
      c = u ∨ c = Char.ofNat (u.toNat + 32))
    (l : List Char) (h : String.mk (l.map f) = "RAW") : String.mk l ∈ rawSpellings := by
  have h' : l.map f = ['R', 'A', 'W'] := by
    have := congrArg String.data h
    simpa using this
  rcases l with _ | ⟨a, _ | ⟨b, _ | ⟨c, _ | ⟨d, l⟩⟩⟩⟩ <;>
    simp only [List.map, List.cons.injEq, and_true, reduceCtorEq, and_false] at h'
  obtain ⟨ha, hb, hc⟩ := h'
  rcases hf a 'R' (by simp) ha with rfl | rfl <;>
  rcases hf b 'A' (by simp) hb with rfl | rfl <;>
  rcases hf c 'W' (by simp) hc with rfl | rfl <;> decide

theorem stringsToUpper_eq_RAW_iff (tbl : Char → Char) (htbl : TableKeepsRAW tbl) (s : String) :
    stringsToUpper tbl s = "RAW" ↔ s ∈ rawSpellings := by
  constructor
  · intro h
    unfold stringsToUpper at h
    simp only at h
    split at h
    · split at h
      · subst h; decide
      · exact map_eq_RAW upperASCII upperASCII_eq_RAW s.data h
    · exact map_eq_RAW (unicodeToUpper tbl) (unicodeToUpper_eq_RAW tbl htbl) s.data h
  · intro h
    simp only [rawSpellings, List.mem_cons, List.mem_singleton, List.not_mem_nil, or_false] at h
    rcases h with rfl | rfl | rfl | rfl | rfl | rfl | rfl | rfl <;> rfl

/-! ## Shared facts about the raw path -/

theorem RoundTrip_of_raw (w : World) (t : Transport) (req : Request)
    (hraw : stringsToUpper w.upperCase req.Method = "RAW") :
    t.RoundTrip w req = t.rawRoundTrip w req := by
  simp [Transport.RoundTrip, hraw]

theorem dial_body_irrelevant (w : World) (t : Transport) (req : Request) (b : Option Body) :
    t.dial w { req with Body := b } = t.dial w req := by
  simp [Transport.dial]

theorem id_table_keeps_RAW : TableKeepsRAW (fun c => c) := by
  intro c hc
  refine ⟨?_, ?_, ?_⟩ <;> rintro rfl <;> revert hc <;> decide

/-- The calls of `exchange`: one write of the given bytes first, then reads. -/
theorem exchange_trace (w : World) (conn : Conn) (raw : Bytes) (req : Request) :
    ∃ e post, (Transport.exchange w conn raw req).2 = ⟨.connWrite conn raw, e⟩ :: post ∧
      post.filterMap (fun c => c.op.written?) = [] ∧
      post.filter (fun c => c.op.isConnClose) = [] ∧
      post.filter (fun c => c.op.isDial) = [] ∧
      post.filter (fun c => c.op.isDelegate) = [] := by
  unfold Transport.exchange
  split
  · exact ⟨_, [], rfl, rfl, rfl, rfl, rfl⟩
  · split
    · exact ⟨_, _, rfl, rfl, rfl, rfl, rfl⟩
    · split
      · exact ⟨_, _, rfl, rfl, rfl, rfl, rfl⟩
      · split <;> exact ⟨_, _, rfl, rfl, rfl, rfl, rfl⟩

theorem dial_op_isDial (w : World) (t : Transport) (req : Request) :
    (t.dial w req).1.isDial = true ∧ (t.dial w req).1.written? = none ∧
    (t.dial w req).1.isConnClose = false ∧ (t.dial w req).1.isConnRead = false ∧
    (t.dial w req).1.isDelegate = false ∧ (t.dial w req).1.step? = some .dial := by
  unfold Transport.dial
  split <;> simp [Op.isDial, Op.written?, Op.isConnClose, Op.isConnRead, Op.isDelegate, Op.step?]

/-- The log of a raw run whose dial succeeds: body read, body close, dial, the
one write, whatever `exchange` does next, and the connection close last. -/
theorem rawRoundTrip_trace_of_dial (w : World) (t : Transport) (req : Request) (body : Body)
    (conn : Conn)
    (hbody : req.Body = some body)
    (hread : (ioReadAll w body).2 = none)
    (hclose : body.Close w = none)
    (hdial : (t.dial w req).2 = .ok conn) :
    ∃ e post,
      (t.rawRoundTrip w req).trace =
        [⟨.readRequestBody body, none⟩, ⟨.closeRequestBody body, none⟩,
         ⟨(t.dial w req).1, none⟩, ⟨.connWrite conn (ioReadAll w body).1, e⟩] ++ post ++
        [⟨.connClose conn, w.connClose conn⟩] ∧
      post.filterMap (fun c => c.op.written?) = [] ∧
      post.filter (fun c => c.op.isConnClose) = [] ∧
      post.filter (fun c => c.op.isDial) = [] ∧
      post.filter (fun c => c.op.isDelegate) = [] := by
  obtain ⟨e, post, hex, h1, h2, h3, h4⟩ :=
    exchange_trace w conn (ioReadAll w body).1 { req with Body := some (.bytesReader []) }
  refine ⟨e, post, ?_, h1, h2, h3, h4⟩
  unfold Transport.rawRoundTrip
  simp only [hbody, hread, hclose, dial_body_irrelevant, hdial, hex]
  simp

/-- The raw path never hands the request to the standard transport. -/
theorem rawRoundTrip_no_delegate (w : World) (t : Transport) (req : Request) :
    ∀ c ∈ (t.rawRoundTrip w req).trace, c.op.isDelegate = false := by
  unfold Transport.rawRoundTrip Transport.exchange Transport.dial
  by_cases hs : req.URL.Scheme = "https" <;> simp only [hs, if_true, if_false] <;>
    repeat' split
  all_goals simp [Op.isDelegate]

/-- The raw run when the dial fails: three calls, no connection. -/
theorem rawRoundTrip_of_dial_error (w : World) (t : Transport) (req : Request) (body : Body)
    (err : GoError)
    (hbody : req.Body = some body)
    (hread : (ioReadAll w body).2 = none)
    (hclose : body.Close w = none)
    (hdial : (t.dial w req).2 = .error err) :
    t.rawRoundTrip w req =
      { result := .returned none (some err)
        trace := [⟨.readRequestBody body, none⟩, ⟨.closeRequestBody body, none⟩,
                  ⟨(t.dial w req).1, some err⟩]
        req := { req with Body := some (.bytesReader []) } } := by
  unfold Transport.rawRoundTrip
  simp only [hbody, hread, hclose, dial_body_irrelevant, hdial]

theorem dial_op_eq (w : World) (t : Transport) (req : Request) :
    (t.dial w req).1 =
      if req.URL.Scheme = "https" then Op.tlsDial "tcp" req.URL.Host t.TLSClientConfig
      else Op.netDial "tcp" req.URL.Host := by
  unfold Transport.dial
  split <;> rfl

/-! ## The claims -/

/-- C1. On the raw path, when the request body is read and closed without error
and the dial succeeds, the log holds exactly one write, on the dialled
connection and of exactly the bytes read from the request body, and no read
from the connection comes before it. -/
theorem RoundTrip_writes_body_once (w : World) (t : Transport) (req : Request) (body : Body)
    (conn : Conn)
    (hraw : stringsToUpper w.upperCase req.Method = "RAW")
    (hbody : req.Body = some body)
    (hread : (ioReadAll w body).2 = none)
    (hclose : body.Close w = none)
    (hdial : (t.dial w req).2 = .ok conn) :
    (t.RoundTrip w req).trace.filterMap (fun c => c.op.written?)
        = [(conn, (ioReadAll w body).1)] ∧
    ∃ pre e post,
      (t.RoundTrip w req).trace = pre ++ ⟨.connWrite conn (ioReadAll w body).1, e⟩ :: post ∧
      ∀ c ∈ pre, c.op.isConnRead = false := by
  rw [RoundTrip_of_raw w t req hraw]
  obtain ⟨e, post, htr, hw, -, -, -⟩ :=
    rawRoundTrip_trace_of_dial w t req body conn hbody hread hclose hdial
  have hd := dial_op_isDial w t req
  rw [htr]
  refine ⟨?_, [⟨.readRequestBody body, none⟩, ⟨.closeRequestBody body, none⟩,
      ⟨(t.dial w req).1, none⟩], e, post ++ [⟨.connClose conn, w.connClose conn⟩], ?_, ?_⟩
  · simp only [List.cons_append, List.nil_append, List.filterMap_cons, List.filterMap_append,
      List.filterMap_nil, hd.2.1, hw]
    simp [Op.written?]
  · simp
  · intro c hc
    simp only [List.mem_cons, List.mem_singleton, List.not_mem_nil, or_false] at hc
    rcases hc with rfl | rfl | rfl
    · rfl
    · rfl
    · exact hd.2.2.2.1

/-- A run of C1: over TLS, the bytes `GET` of the body are the one write. -/
theorem RoundTrip_writes_body_once_witness :
    (exampleTransport.RoundTrip happyWorld rawRequest1).trace.filterMap
        (fun c => c.op.written?) = [(7, [71, 69, 84])] ∧
    ∃ pre e post,
      (exampleTransport.RoundTrip happyWorld rawRequest1).trace
        = pre ++ ⟨.connWrite 7 [71, 69, 84], e⟩ :: post ∧
      ∀ c ∈ pre, c.op.isConnRead = false :=
  RoundTrip_writes_body_once happyWorld exampleTransport rawRequest1 (.stream 1) 7
    (by decide) rfl rfl rfl rfl

/-- C4, as the code has it. For every raw request whose body is not nil,
`RoundTrip` returns either a response with a nil error, after all seven steps
were made and none failed, or no response with the error of the last step it
made, every step before that one having succeeded; the steps are made in the
order of the source, so none follows the failing one. -/
theorem RoundTrip_raw_outcome (w : World) (t : Transport) (req : Request) (body : Body)
    (hraw : stringsToUpper w.upperCase req.Method = "RAW")
    (hbody : req.Body = some body) :
    (∃ resp, (t.RoundTrip w req).result = .returned (some resp) none ∧
      ((t.RoundTrip w req).trace.filterMap (fun c => c.op.step?)) = allSteps ∧
      ∀ c ∈ (t.RoundTrip w req).trace.filter (fun c => c.op.step?.isSome), c.err = none) ∨
    (∃ err, (t.RoundTrip w req).result = .returned none (some err) ∧
      (((t.RoundTrip w req).trace.filter (fun c => c.op.step?.isSome)).getLast?).map Call.err
        = some (some err) ∧
      (∀ c ∈ ((t.RoundTrip w req).trace.filter (fun c => c.op.step?.isSome)).dropLast,
        c.err = none) ∧
      ((t.RoundTrip w req).trace.filterMap (fun c => c.op.step?)) <+: allSteps) := by
  rw [RoundTrip_of_raw w t req hraw]
  unfold Transport.rawRoundTrip Transport.exchange Transport.dial
  simp only [hbody]
  by_cases hs : req.URL.Scheme = "https" <;> simp only [hs, if_true, if_false] <;>
    repeat' split
  all_goals
    first
      | (left; refine ⟨_, rfl, ?_, ?_⟩ <;> simp [Op.step?, allSteps])
      | (right; refine ⟨_, rfl, ?_, ?_, ?_⟩ <;> simp [Op.step?, allSteps])

/-- A run of C4, as the code has it: the write fails on a plain connection, and
its error is what comes back. -/
theorem RoundTrip_raw_outcome_witness :
    (∃ resp, (exampleTransport.RoundTrip brokenPipeWorld rawRequest2).result
        = .returned (some resp) none ∧
      ((exampleTransport.RoundTrip brokenPipeWorld rawRequest2).trace.filterMap
        (fun c => c.op.step?)) = allSteps ∧
      ∀ c ∈ (exampleTransport.RoundTrip brokenPipeWorld rawRequest2).trace.filter
        (fun c => c.op.step?.isSome), c.err = none) ∨
    (∃ err, (exampleTransport.RoundTrip brokenPipeWorld rawRequest2).result
        = .returned none (some err) ∧
      (((exampleTransport.RoundTrip brokenPipeWorld rawRequest2).trace.filter
        (fun c => c.op.step?.isSome)).getLast?).map Call.err = some (some err) ∧
      (∀ c ∈ ((exampleTransport.RoundTrip brokenPipeWorld rawRequest2).trace.filter
        (fun c => c.op.step?.isSome)).dropLast, c.err = none) ∧
      ((exampleTransport.RoundTrip brokenPipeWorld rawRequest2).trace.filterMap
        (fun c => c.op.step?)) <+: allSteps) :=
  RoundTrip_raw_outcome brokenPipeWorld exampleTransport rawRequest2 (.stream 1)
    (by decide) rfl

/-- C4 fails as stated: a raw request with a nil body makes `RoundTrip` panic in
`io.ReadAll`, so it returns neither a response nor an error. -/
theorem RoundTrip_nil_body_panics :
    (exampleTransport.RoundTrip happyWorld nilBodyRequest).result = Result.panicked ∧
    ∀ resp err,
      (exampleTransport.RoundTrip happyWorld nilBodyRequest).result ≠ .returned resp err := by
  constructor
  · rfl
  · intro resp err h
    have h' : Result.panicked = Result.returned resp err := h
    cases h'

/-- C2. `RoundTrip` takes the raw path exactly for the methods that spell `RAW`
in some mix of cases; for any other method the run is one call of the standard
transport obtained from `Clone` on the same request, whose response and error
are returned as they are, with no body read and no dial. -/
theorem RoundTrip_dispatch (w : World) (t : Transport) (req : Request)
    (htbl : TableKeepsRAW w.upperCase) :
    (req.Method ∈ rawSpellings → t.RoundTrip w req = t.rawRoundTrip w req) ∧
    (req.Method ∉ rawSpellings →
      t.RoundTrip w req =
        { result := .returned (w.stdRoundTrip t.Clone req).1 (w.stdRoundTrip t.Clone req).2
          trace := [⟨.delegate t.Clone req, (w.stdRoundTrip t.Clone req).2⟩]
          req := req }) ∧
    (req.Method ∈ rawSpellings ↔
      ∀ c ∈ (t.RoundTrip w req).trace, c.op.isDelegate = false) := by
  have hiff := stringsToUpper_eq_RAW_iff w.upperCase htbl req.Method
  have hnot : req.Method ∉ rawSpellings →
      t.RoundTrip w req =
        { result := .returned (w.stdRoundTrip t.Clone req).1 (w.stdRoundTrip t.Clone req).2
          trace := [⟨.delegate t.Clone req, (w.stdRoundTrip t.Clone req).2⟩]
          req := req } := by
    intro h
    have h' : stringsToUpper w.upperCase req.Method ≠ "RAW" := fun e => h (hiff.mp e)
    simp [Transport.RoundTrip, h']
  refine ⟨fun h => RoundTrip_of_raw w t req (hiff.mpr h), hnot, ?_, ?_⟩
  · intro h
    rw [RoundTrip_of_raw w t req (hiff.mpr h)]
    exact rawRoundTrip_no_delegate w t req
  · intro h
    by_contra hn
    rw [hnot hn] at h
    have := h ⟨.delegate t.Clone req, (w.stdRoundTrip t.Clone req).2⟩ (by simp)
    simp [Op.isDelegate] at this

/-- A run of C2: the method `GET` is delegated, and `raw` is not. -/
theorem RoundTrip_dispatch_witness :
    TableKeepsRAW happyWorld.upperCase ∧
    (exampleTransport.RoundTrip happyWorld getRequest).trace
      = [⟨.delegate exampleTransport.Clone getRequest, none⟩] ∧
    (rawRequest1.Method ∈ rawSpellings ↔
      ∀ c ∈ (exampleTransport.RoundTrip happyWorld rawRequest1).trace,
        c.op.isDelegate = false) :=
  ⟨id_table_keeps_RAW,
   congrArg Run.trace
     ((RoundTrip_dispatch happyWorld exampleTransport getRequest id_table_keeps_RAW).2.1
       (by decide)),
   (RoundTrip_dispatch happyWorld exampleTransport rawRequest1 id_table_keeps_RAW).2.2⟩

/-- C3. A raw request that reaches the dial step (body read and closed without
error) makes exactly one dial, to `req.URL.Host` over tcp: a TLS dial with the
transport's `TLSClientConfig` when the scheme is `https`, a plain dial otherwise. -/
theorem RoundTrip_dials_by_scheme (w : World) (t : Transport) (req : Request) (body : Body)
    (hraw : stringsToUpper w.upperCase req.Method = "RAW")
    (hbody : req.Body = some body)
    (hread : (ioReadAll w body).2 = none)
    (hclose : body.Close w = none) :
    ((t.RoundTrip w req).trace.filter (fun c => c.op.isDial)).map Call.op =
      [if req.URL.Scheme = "https" then Op.tlsDial "tcp" req.URL.Host t.TLSClientConfig
       else Op.netDial "tcp" req.URL.Host] := by
  rw [RoundTrip_of_raw w t req hraw, ← dial_op_eq w t req]
  have hd := dial_op_isDial w t req
  cases hdial : (t.dial w req).2 with
  | error err =>
    rw [rawRoundTrip_of_dial_error w t req body err hbody hread hclose hdial]
    simp only [List.filter_cons, hd.1]
    simp [Op.isDial]
  | ok conn =>
    obtain ⟨e, post, htr, -, -, hp, -⟩ :=
      rawRoundTrip_trace_of_dial w t req body conn hbody hread hclose hdial
    rw [htr]
    simp only [List.cons_append, List.nil_append, List.filter_cons, List.filter_append,
      List.filter_nil, hd.1, hp]
    simp [Op.isDial]

/-- A run of C3: the scheme `https` gives one TLS dial with the configured
settings. -/
theorem RoundTrip_dials_by_scheme_witness :
    ((exampleTransport.RoundTrip happyWorld rawRequest1).trace.filter
        (fun c => c.op.isDial)).map Call.op =
      [if rawRequest1.URL.Scheme = "https" then
         Op.tlsDial "tcp" rawRequest1.URL.Host exampleTransport.TLSClientConfig
       else Op.netDial "tcp" rawRequest1.URL.Host] :=
  RoundTrip_dials_by_scheme happyWorld exampleTransport rawRequest1 (.stream 1)
    (by decide) rfl rfl rfl

/-- C5. On the raw path, when the dial is reached and succeeds the log holds
exactly one close of the dialled connection, and it is the last call of the
run, whatever the write, the parse, the body read and the body close return;
when the dial fails or is not reached the log holds no connection close. -/
theorem RoundTrip_closes_conn_once (w : World) (t : Transport) (req : Request)
    (hraw : stringsToUpper w.upperCase req.Method = "RAW") :
    (∀ body conn, req.Body = some body → (ioReadAll w body).2 = none →
        body.Close w = none → (t.dial w req).2 = .ok conn →
      ((t.RoundTrip w req).trace.filter (fun c => c.op.isConnClose)).map Call.op
          = [.connClose conn] ∧
      (t.RoundTrip w req).trace.getLast? = some ⟨.connClose conn, w.connClose conn⟩) ∧
    ((¬ ∃ body conn, req.Body = some body ∧ (ioReadAll w body).2 = none ∧
        body.Close w = none ∧ (t.dial w req).2 = .ok conn) →
      (t.RoundTrip w req).trace.filter (fun c => c.op.isConnClose) = []) := by
  rw [RoundTrip_of_raw w t req hraw]
  have hd := dial_op_isDial w t req
  constructor
  · intro body conn hbody hread hclose hdial
    obtain ⟨e, post, htr, -, hp, -, -⟩ :=
      rawRoundTrip_trace_of_dial w t req body conn hbody hread hclose hdial
    rw [htr]
    constructor
    · simp only [List.cons_append, List.nil_append, List.filter_cons, List.filter_append,
        List.filter_nil, hd.2.2.1, hp]
      simp [Op.isConnClose]
    · exact List.getLast?_concat _
  · intro hno
    unfold Transport.rawRoundTrip
    cases hbody : req.Body with
    | none => simp
    | some body =>
      cases hread : (ioReadAll w body).2 with
      | some e => simp [hread, Op.isConnClose]
      | none =>
        cases hclose : body.Close w with
        | some e => simp [hread, hclose, Op.isConnClose]
        | none =>
          cases hdial : (t.dial w req).2 with
          | ok conn => exact absurd ⟨body, conn, hbody, hread, hclose, hdial⟩ hno
          | error err =>
            simp only [hread, hclose, dial_body_irrelevant, hdial, List.filter_cons, hd.2.2.1]
            simp [Op.isConnClose]

/-- A run of C5: the write fails, and the dialled connection is still closed,
once and last. -/
theorem RoundTrip_closes_conn_once_witness :
    ((exampleTransport.RoundTrip brokenPipeWorld rawRequest2).trace.filter
        (fun c => c.op.isConnClose)).map Call.op = [.connClose 8] ∧
    (exampleTransport.RoundTrip brokenPipeWorld rawRequest2).trace.getLast?
      = some ⟨.connClose 8, none⟩ :=
  (RoundTrip_closes_conn_once brokenPipeWorld exampleTransport rawRequest2 (by decide)).1
    (.stream 1) 8 rfl rfl rfl rfl

/-- C6. When a raw exchange succeeds, the response returned is the response
parsed from the dialled connection with only its body replaced: status code,
status text and headers are the parsed ones, the body is an in-memory reader
over exactly the bytes read from the parsed body, so reading it yields those
bytes in any world, and the parsed body was read before the connection was
closed. -/
theorem RoundTrip_response_rehydrated (w : World) (t : Transport) (req : Request)
    (resp : Response)
    (hraw : stringsToUpper w.upperCase req.Method = "RAW")
    (hok : (t.RoundTrip w req).result = .returned (some resp) none) :
    ∃ body conn parsed,
      req.Body = some body ∧ (t.dial w req).2 = .ok conn ∧
      w.readResponse conn { req with Body := some (.bytesReader []) } = .ok parsed ∧
      (ioReadAll w parsed.Body).2 = none ∧
      resp = { parsed with Body := .bytesReader (ioReadAll w parsed.Body).1 } ∧
      resp.StatusCode = parsed.StatusCode ∧ resp.Status = parsed.Status ∧
      resp.Header = parsed.Header ∧
      (∀ w2 : World, ioReadAll w2 resp.Body = ((ioReadAll w parsed.Body).1, none) ∧
        resp.Body.Close w2 = none) ∧
      (t.RoundTrip w req).trace =
        [⟨.readRequestBody body, none⟩, ⟨.closeRequestBody body, none⟩,
         ⟨(t.dial w req).1, none⟩, ⟨.connWrite conn (ioReadAll w body).1, none⟩,
         ⟨.readResponse conn { req with Body := some (.bytesReader []) }, none⟩,
         ⟨.readResponseBody conn parsed.Body, none⟩,
         ⟨.closeResponseBody conn parsed.Body, none⟩,
         ⟨.connClose conn, w.connClose conn⟩] := by
  rw [RoundTrip_of_raw w t req hraw] at hok ⊢
  unfold Transport.rawRoundTrip at hok ⊢
  cases hbody : req.Body with
  | none => simp [hbody] at hok
  | some body =>
    simp only [hbody] at hok ⊢
    cases hread : (ioReadAll w body).2 with
    | some e => simp [hread] at hok
    | none =>
      simp only [hread] at hok ⊢
      cases hclose : body.Close w with
      | some e => simp [hclose] at hok
      | none =>
        simp only [hclose, dial_body_irrelevant] at hok ⊢
        cases hdial : (t.dial w req).2 with
        | error e => simp [hdial] at hok
        | ok conn =>
          simp only [hdial] at hok ⊢
          unfold Transport.exchange at hok ⊢
          cases hwrite : (w.connWrite conn (ioReadAll w body).1).2 with
          | some e => simp [hwrite] at hok
          | none =>
            simp only [hwrite] at hok ⊢
            cases hparse : w.readResponse conn { req with Body := some (.bytesReader []) } with
            | error e => simp [hparse] at hok
            | ok parsed =>
              simp only [hparse] at hok ⊢
              cases hrr : (ioReadAll w parsed.Body).2 with
              | some e => simp [hrr] at hok
              | none =>
                simp only [hrr] at hok ⊢
                cases hrc : parsed.Body.Close w with
                | some e => simp [hrc] at hok
                | none =>
                  simp only [hrc, Result.returned.injEq, Option.some.injEq, and_true] at hok ⊢
                  subst hok
                  refine ⟨body, conn, parsed, rfl, rfl, hparse, hrr, rfl, rfl, rfl, rfl, ?_, ?_⟩
                  · intro w2
                    exact ⟨rfl, rfl⟩
                  · simp

/-- A run of C6: the body `ok` is what the returned response holds, in memory. -/
theorem RoundTrip_response_rehydrated_witness :
    ∃ body conn parsed,
      rawRequest1.Body = some body ∧ (exampleTransport.dial happyWorld rawRequest1).2 = .ok conn ∧
      happyWorld.readResponse conn { rawRequest1 with Body := some (.bytesReader []) }
        = .ok parsed ∧
      (ioReadAll happyWorld parsed.Body).2 = none ∧
      ({ okResponse with Body := .bytesReader [111, 107] } : Response) =
        { parsed with Body := .bytesReader (ioReadAll happyWorld parsed.Body).1 } ∧
      ({ okResponse with Body := .bytesReader [111, 107] } : Response).StatusCode
        = parsed.StatusCode ∧
      ({ okResponse with Body := .bytesReader [111, 107] } : Response).Status = parsed.Status ∧
      ({ okResponse with Body := .bytesReader [111, 107] } : Response).Header = parsed.Header ∧
      (∀ w2 : World,
        ioReadAll w2 ({ okResponse with Body := .bytesReader [111, 107] } : Response).Body
          = ((ioReadAll happyWorld parsed.Body).1, none) ∧
        ({ okResponse with Body := .bytesReader [111, 107] } : Response).Body.Close w2 = none) ∧
      (exampleTransport.RoundTrip happyWorld rawRequest1).trace =
        [⟨.readRequestBody body, none⟩, ⟨.closeRequestBody body, none⟩,
         ⟨(exampleTransport.dial happyWorld rawRequest1).1, none⟩,
         ⟨.connWrite conn (ioReadAll happyWorld body).1, none⟩,
         ⟨.readResponse conn { rawRequest1 with Body := some (.bytesReader []) }, none⟩,
         ⟨.readResponseBody conn parsed.Body, none⟩,
         ⟨.closeResponseBody conn parsed.Body, none⟩,
         ⟨.connClose conn, happyWorld.connClose conn⟩] :=
  RoundTrip_response_rehydrated happyWorld exampleTransport rawRequest1
    { okResponse with Body := .bytesReader [111, 107] } (by decide) rfl

/-- C7. `RoundTrip` changes no field of the request but the body: a request with
another method is handed to the standard transport as it is; on the raw path,
once the body has been read and closed without error, the request holds an
empty in-memory body, whose reading yields no bytes, however the rest of the
run ends; method, URL and headers are the caller's in every case. -/
theorem RoundTrip_request_frame (w : World) (t : Transport) (req : Request) :
    (t.RoundTrip w req).req = { req with Body := (t.RoundTrip w req).req.Body } ∧
    (t.RoundTrip w req).req.Method = req.Method ∧
    (t.RoundTrip w req).req.URL = req.URL ∧
    (t.RoundTrip w req).req.Header = req.Header ∧
    (stringsToUpper w.upperCase req.Method ≠ "RAW" →
      (t.RoundTrip w req).req = req ∧
      (t.RoundTrip w req).trace.map Call.op = [.delegate t.Clone req]) ∧
    (stringsToUpper w.upperCase req.Method = "RAW" →
      ∀ body, req.Body = some body → (ioReadAll w body).2 = none → body.Close w = none →
        ∃ b, (t.RoundTrip w req).req.Body = some b ∧
          ∀ w2 : World, ioReadAll w2 b = ([], none)) := by
  have key : (t.RoundTrip w req).req = { req with Body := (t.RoundTrip w req).req.Body } := by
    unfold Transport.RoundTrip Transport.rawRoundTrip
    split
    · rfl
    · split
      · rfl
      · split
        · rfl
        · split
          · rfl
          · dsimp only
            split <;> rfl
  refine ⟨key, ?_, ?_, ?_, ?_, ?_⟩
  · rw [key]
  · rw [key]
  · rw [key]
  · intro h
    simp [Transport.RoundTrip, h]
  · intro h body hbody hread hclose
    rw [RoundTrip_of_raw w t req h]
    refine ⟨.bytesReader [], ?_, fun _ => rfl⟩
    unfold Transport.rawRoundTrip
    simp only [hbody, hread, hclose]
    split <;> rfl

/-- A run of C7: after a raw run whose write fails, the request holds the empty
body and its other fields are untouched. -/
theorem RoundTrip_request_frame_witness :
    (exampleTransport.RoundTrip brokenPipeWorld rawRequest2).req
      = { rawRequest2 with Body := some (.bytesReader []) } ∧
    (exampleTransport.RoundTrip brokenPipeWorld rawRequest2).req
      = { rawRequest2 with
          Body := (exampleTransport.RoundTrip brokenPipeWorld rawRequest2).req.Body } :=
  ⟨rfl, (RoundTrip_request_frame brokenPipeWorld exampleTransport rawRequest2).1⟩

/-- What `Clone` does with each exported field: all are copied but
`TLSClientConfig` and `TLSNextProto`, which are nil in the clone. -/
theorem Clone_fields (t : Transport) :
    t.Clone.Proxy = t.Proxy ∧
    t.Clone.OnProxyConnectResponse = t.OnProxyConnectResponse ∧
    t.Clone.DialContext = t.DialContext ∧ t.Clone.Dial = t.Dial ∧
    t.Clone.DialTLSContext = t.DialTLSContext ∧ t.Clone.DialTLS = t.DialTLS ∧
    t.Clone.TLSHandshakeTimeout = t.TLSHandshakeTimeout ∧
    t.Clone.DisableKeepAlives = t.DisableKeepAlives ∧
    t.Clone.DisableCompression = t.DisableCompression ∧
    t.Clone.MaxIdleConns = t.MaxIdleConns ∧
    t.Clone.MaxIdleConnsPerHost = t.MaxIdleConnsPerHost ∧
    t.Clone.MaxConnsPerHost = t.MaxConnsPerHost ∧
    t.Clone.IdleConnTimeout = t.IdleConnTimeout ∧
    t.Clone.ResponseHeaderTimeout = t.ResponseHeaderTimeout ∧
    t.Clone.ExpectContinueTimeout = t.ExpectContinueTimeout ∧
    t.Clone.ProxyConnectHeader = t.ProxyConnectHeader ∧
    t.Clone.GetProxyConnectHeader = t.GetProxyConnectHeader ∧
    t.Clone.MaxResponseHeaderBytes = t.MaxResponseHeaderBytes ∧
    t.Clone.WriteBufferSize = t.WriteBufferSize ∧
    t.Clone.ReadBufferSize = t.ReadBufferSize ∧
    t.Clone.ForceAttemptHTTP2 = t.ForceAttemptHTTP2 ∧
    t.Clone.TLSClientConfig = none ∧ t.Clone.TLSNextProto = none := by
  simp [Transport.Clone, Header.Clone]

/-- C8, at the transport of the example program: the caller configured TLS
settings (certificate verification off), and the transport `Clone` returns has
none, so the field of the clone differs from the field of the transport. -/
theorem Clone_drops_TLSClientConfig :
    exampleTransport.TLSClientConfig
      = some { InsecureSkipVerify := true, ServerName := "" } ∧
    exampleTransport.Clone.TLSClientConfig = none ∧
    exampleTransport.Clone.TLSClientConfig ≠ exampleTransport.TLSClientConfig := by
  refine ⟨rfl, rfl, ?_⟩
  decide

/-- C9. `Post`, `Put` and `Patch` called with two or more extra arguments, of
whatever types, return no response and the error `too many arguments`, and
make no external call: no request is built or sent. -/
theorem Post_Put_Patch_too_many_arguments (w : World) (c : Client)
    (url contentType : String) (body : Option Body) (args : List Arg)
    (h : 2 ≤ args.length) :
    c.Post w url contentType body args
      = { result := .returned none (some "too many arguments"), trace := [] } ∧
    c.Put w url contentType body args
      = { result := .returned none (some "too many arguments"), trace := [] } ∧
    c.Patch w url contentType body args
      = { result := .returned none (some "too many arguments"), trace := [] } := by
  have h0 : args.length > 0 := by omega
  have h1 : args.length > 1 := by omega
  simp [Client.Post, Client.Put, Client.Patch, h0, h1]

/-- A run of C9: an integer and a reader as the two extra arguments. -/
theorem Post_Put_Patch_too_many_arguments_witness :
    exampleClient.Post happyWorld "http://example.org:80/" "application/json"
        (some (.stream 1)) [.other "int", .reader (.stream 3)]
      = { result := .returned none (some "too many arguments"), trace := [] } ∧
    exampleClient.Put happyWorld "http://example.org:80/" "application/json"
        (some (.stream 1)) [.other "int", .reader (.stream 3)]
      = { result := .returned none (some "too many arguments"), trace := [] } ∧
    exampleClient.Patch happyWorld "http://example.org:80/" "application/json"
        (some (.stream 1)) [.other "int", .reader (.stream 3)]
      = { result := .returned none (some "too many arguments"), trace := [] } :=
  Post_Put_Patch_too_many_arguments happyWorld exampleClient "http://example.org:80/"
    "application/json" (some (.stream 1)) [.other "int", .reader (.stream 3)] (by decide)

/-- The loop of `request` keeps the last reader and the last string map. -/
theorem foldl_requestStep (args : List Arg) :
    args.foldl requestStep (none, []) = (lastReader args, lastHeaderMap args) := by
  induction args using List.reverseRecOn with
  | nil => rfl
  | append_singleton l a ih =>
    rw [List.foldl_append, ih]
    cases a <;>
      simp [requestStep, lastReader, lastHeaderMap, List.filterMap_append, Arg.reader?,
        Arg.headerMap?]

theorem request_eq (w : World) (c : Client) (method url : String) (args : List Arg) :
    c.request w method url args =
      c.Request w method url (lastReader args) (lastHeaderMap args) := by
  simp [Client.request, foldl_requestStep]

/-- C10 fails as stated: `Get` with two header-map arguments does not return the
too-many-arguments error; it builds the request with the second map as its
headers, sends it, and returns the response. -/
theorem Get_two_header_maps_sends :
    exampleClient.Get happyWorld "example.org:80"
        [.headerMap [("A", "1")], .headerMap [("B", "2")]] =
      { result := .returned (some okResponse) none
        trace :=
          [⟨.newRequest "GET" "example.org:80" none, none⟩,
           ⟨.clientDo exampleClient.Clone
              { Method := "GET"
                URL := { Scheme := "http", Host := "example.org:80", Path := "/",
                         RawQuery := "" }
                Header := [("B", ["2"])], Body := none }, none⟩] } ∧
    exampleClient.Get happyWorld "example.org:80"
        [.headerMap [("A", "1")], .headerMap [("B", "2")]] ≠ tooManyArguments := by
  constructor
  · rfl
  · decide

/-- C10, as the code has it. With more than one header-map argument, `Post`,
`Put` and `Patch` return no response and the too-many-arguments error without
any external call, while `Get`, `Head`, `Delete`, `Options` and `Trace` count
nothing: each runs `Request` with the last header-map argument as the headers
and the last reader argument as the body, and returns what that returns. -/
theorem header_map_arguments (w : World) (c : Client) (url contentType : String)
    (body : Option Body) (args : List Arg)
    (h : 2 ≤ (args.filterMap Arg.headerMap?).length) :
    (c.Post w url contentType body args = tooManyArguments ∧
     c.Put w url contentType body args = tooManyArguments ∧
     c.Patch w url contentType body args = tooManyArguments) ∧
    (c.Get w url args = c.Request w "GET" url (lastReader args) (lastHeaderMap args) ∧
     c.Head w url args = c.Request w "HEAD" url (lastReader args) (lastHeaderMap args) ∧
     c.Delete w url args = c.Request w "DELETE" url (lastReader args) (lastHeaderMap args) ∧
     c.Options w url args
       = c.Request w "OPTIONS" url (lastReader args) (lastHeaderMap args) ∧
     c.Trace w url args = c.Request w "TRACE" url (lastReader args) (lastHeaderMap args)) := by
  have hle : (args.filterMap Arg.headerMap?).length ≤ args.length :=
    List.length_filterMap_le _ _
  have h0 : args.length > 0 := by omega
  have h1 : args.length > 1 := by omega
  refine ⟨?_, request_eq .., request_eq .., request_eq .., request_eq .., request_eq ..⟩
  simp [Client.Post, Client.Put, Client.Patch, tooManyArguments, h0, h1]

/-- A run of C10, as the code has it: two header maps given to each verb. -/
theorem header_map_arguments_witness :
    (exampleClient.Post happyWorld "example.org:80" "text/plain" none
        [.headerMap [("A", "1")], .headerMap [("B", "2")]] = tooManyArguments ∧
     exampleClient.Put happyWorld "example.org:80" "text/plain" none
        [.headerMap [("A", "1")], .headerMap [("B", "2")]] = tooManyArguments ∧
     exampleClient.Patch happyWorld "example.org:80" "text/plain" none
        [.headerMap [("A", "1")], .headerMap [("B", "2")]] = tooManyArguments) ∧
    (exampleClient.Get happyWorld "example.org:80"
        [.headerMap [("A", "1")], .headerMap [("B", "2")]]
       = exampleClient.Request happyWorld "GET" "example.org:80" none [("B", "2")] ∧
     exampleClient.Head happyWorld "example.org:80"
        [.headerMap [("A", "1")], .headerMap [("B", "2")]]
       = exampleClient.Request happyWorld "HEAD" "example.org:80" none [("B", "2")] ∧
     exampleClient.Delete happyWorld "example.org:80"
        [.headerMap [("A", "1")], .headerMap [("B", "2")]]
       = exampleClient.Request happyWorld "DELETE" "example.org:80" none [("B", "2")] ∧
     exampleClient.Options happyWorld "example.org:80"
        [.headerMap [("A", "1")], .headerMap [("B", "2")]]
       = exampleClient.Request happyWorld "OPTIONS" "example.org:80" none [("B", "2")] ∧
     exampleClient.Trace happyWorld "example.org:80"
        [.headerMap [("A", "1")], .headerMap [("B", "2")]]
       = exampleClient.Request happyWorld "TRACE" "example.org:80" none [("B", "2")]) :=
  header_map_arguments happyWorld exampleClient "example.org:80" "text/plain" none
    [.headerMap [("A", "1")], .headerMap [("B", "2")]] (by decide)

end HttpRaw
